import Mathlib

/-!
Shallow embedding of `custom_components/virginmedia_tv/pyvmtivo/client.py`
(classes `Device` and `Client`) and of the relevant parts of
`pyvmtivo/exceptions.py`.

Modelling conventions:
* Python strings are Lean `String`s; the byte buffer returned by a socket
  read is modelled as the decoded string (the code only ever decodes it).
* Python string primitives used by the code (`str.strip`, `str.upper`,
  `str.lower`, `str.startswith`, `data.split(" ")[-1]`,
  `re.search(r"\d\x7b4\x7d", data)`) are re-implemented below over `List Char`.
* Raising an exception is modelled by the `Outcome` type; the concrete
  exception classes of `exceptions.py` become the constructors of
  `VirginMediaError`, and `str(err)` becomes `VirginMediaError.message`
  (each constructor's message copies the `super().__init__(...)` argument).
* The asynchronous environment is modelled by passing in what the socket
  did: a `ReadResult` for the single `reader.read(1024)` performed by
  `wait_for_data`, and an optional write-time failure for
  `writer.write`/`writer.drain`.
* Registered data callbacks are modelled by identifiers (`Nat`); invoking a
  callback with the device snapshot is recorded as a pair
  `(callback, snapshot)` in an `invoked` list, in invocation order.
-/

/-- Python `str.strip()` restricted to the whitespace the protocol produces:
drop whitespace from both ends. -/
def pyStrip (s : String) : String :=
  ⟨((s.data.dropWhile Char.isWhitespace).reverse.dropWhile Char.isWhitespace).reverse⟩

/-- Python `str.upper()` (per-character, faithful on the ASCII data the
protocol uses). -/
def pyUpper (s : String) : String := ⟨s.data.map Char.toUpper⟩

/-- Python `str.lower()` (per-character, faithful on the ASCII data the
protocol uses). -/
def pyLower (s : String) : String := ⟨s.data.map Char.toLower⟩

/-- Python `pattern.isPrefixOf`-style check: `startsWithL p s` is
`s.startswith(p)` over character lists. -/
def startsWithL : List Char → List Char → Bool
  | [], _ => true
  | _ :: _, [] => false
  | p :: ps, c :: cs => p == c && startsWithL ps cs

/-- Python `data.split(" ")[-1]` over the characters of `data`: the suffix
after the last space (the whole list when there is no space). -/
def afterLastSpace (cs : List Char) : List Char :=
  cs.foldl (fun acc c => if c == ' ' then [] else acc ++ [c]) []

/-- Python `data.split(" ")[-1]` on a string. -/
def lastToken (s : String) : String := ⟨afterLastSpace s.data⟩

/-- Python `int(...)` on a string of decimal digits. -/
def digitsToNat (cs : List Char) : Nat :=
  cs.foldl (fun n c => 10 * n + (c.toNat - 48)) 0

/-- Whether four consecutive decimal digits occur at position `i` of `cs`
(the test `re.search` performs at each candidate position). -/
def fourDigitsAt (cs : List Char) (i : Nat) : Bool :=
  match cs.drop i with
  | a :: b :: c :: d :: _ => a.isDigit && b.isDigit && c.isDigit && d.isDigit
  | _ => false

/-- Integer value of the four characters at position `i` of `cs`
(Python `int(regex_match.group(0))` when the match is at `i`). -/
def windowVal (cs : List Char) (i : Nat) : Nat :=
  digitsToNat ((cs.drop i).take 4)

/-- Embedding of `re.search(r"\d\x7b4\x7d", data)` followed by
`int(regex_match.group(0))`: `re.search` tries candidate positions left to
right and returns the leftmost position at which four consecutive digits
occur; this function returns the integer value of that leftmost match, or
`none` when there is no match. -/
def findFourVal : List Char → Option Nat
  | [] => none
  | a :: rest =>
    if fourDigitsAt (a :: rest) 0 then some (digitsToNat ((a :: rest).take 4))
    else findFourVal rest

/-- Constructors mirror the exception classes of `pyvmtivo/exceptions.py`
(`VirginMediaError` itself, raised with a message string, is `generic`). -/
inductive VirginMediaError
  | commandTimeout
  | connectionReset
  | invalidChannel (channel_number : Nat)
  | invalidCommand (command : String)
  | invalidKey (key_code : String)
  | notLive
  | generic (message : String)
  deriving DecidableEq

/-- Python `str(err)`: the message each exception class passes to
`super().__init__` in `exceptions.py`. -/
def VirginMediaError.message : VirginMediaError → String
  | .commandTimeout => "Command timeout"
  | .connectionReset => "Connection reset"
  | .invalidChannel n => "Invalid channel (" ++ toString n ++ ")"
  | .invalidCommand c => "Invalid command (" ++ c ++ ")"
  | .invalidKey k => "Invalid key (" ++ k ++ ")"
  | .notLive => "Not in LiveTV mode"
  | .generic m => m

/-- Result of a call: the Python code either returns `None` or raises. -/
inductive Outcome
  | ok
  | raised (e : VirginMediaError)
  deriving DecidableEq

/-- Embedding of class `Device` (`client.py`, lines 31-70); fields carry
the names of the corresponding properties. -/
structure Device where
  host : String
  port : Nat
  channel_number : Option Nat
  previous_channel_number : Option Nat
  deriving DecidableEq

/-- Embedding of `Device._set_channel_number` (`client.py`, lines 42-50):
when the value differs from the current channel number, remember the old
one and store the new one; otherwise do nothing. -/
def Device.set_channel_number (dev : Device) (value : Option Nat := none) : Device :=
  if value ≠ dev.channel_number then
    { dev with previous_channel_number := dev.channel_number, channel_number := value }
  else dev

/-- What the single `reader.read(1024)` in `wait_for_data` did:
it timed out (`asyncio.TimeoutError`), failed with some other exception
(modelled by the formatted message the code wraps it in), or returned a
buffer (decoded; `""` is the zero-byte read of a closed peer). -/
inductive ReadResult
  | timeout
  | failure (message : String)
  | bytes (s : String)

/-- Result of `wait_for_data` (and of the command methods built on it):
the device state afterwards, the return/raise outcome, and the data
callbacks invoked together with the snapshot each received. -/
structure WaitOut where
  device : Device
  outcome : Outcome
  invoked : List (Nat × Device)
  deriving DecidableEq

/-- Embedding of `Client.wait_for_data` (`client.py`, lines 287-337), with
the read's behaviour supplied as `r`.  Timeout resets the channel number
and raises `VirginMediaCommandTimeout`; any other read failure raises
`VirginMediaError` with the formatted message; a zero-byte read resets the
channel number (no-argument call) and raises `VirginMediaConnectionReset`.
Otherwise the line is stripped and classified: `CH_STATUS ...` updates the
channel number from the leftmost four-digit match if any; `CH_FAILED ...`
raises `VirginMediaError` with the last space-delimited token; the exact
lines `INVALID_KEY` and `INVALID_COMMAND` raise `VirginMediaError` with
that text; anything else is ignored.  On the non-raising paths every
registered callback is then invoked with the device (the code guards with
`if self._data_callback` and an `isinstance(func, Callable)` test, both of
which are the identity on a list of callables). -/
def wait_for_data (dev : Device) (cbs : List Nat) (r : ReadResult) : WaitOut :=
  match r with
  | .timeout =>
    { device := dev.set_channel_number none
      outcome := .raised .commandTimeout
      invoked := [] }
  | .failure msg =>
    { device := dev, outcome := .raised (.generic msg), invoked := [] }
  | .bytes s =>
    if s = "" then
      { device := dev.set_channel_number
        outcome := .raised .connectionReset
        invoked := [] }
    else
      let line := pyStrip s
      if startsWithL "CH_STATUS".data line.data then
        match findFourVal line.data with
        | some v =>
          let dev' := dev.set_channel_number (some v)
          { device := dev', outcome := .ok, invoked := cbs.map fun c => (c, dev') }
        | none =>
          { device := dev, outcome := .ok, invoked := cbs.map fun c => (c, dev) }
      else if startsWithL "CH_FAILED".data line.data then
        { device := dev, outcome := .raised (.generic (lastToken line)), invoked := [] }
      else if line = "INVALID_KEY" then
        { device := dev, outcome := .raised (.generic "INVALID_KEY"), invoked := [] }
      else if line = "INVALID_COMMAND" then
        { device := dev, outcome := .raised (.generic "INVALID_COMMAND"), invoked := [] }
      else
        { device := dev, outcome := .ok, invoked := cbs.map fun c => (c, dev) }

/-- Embedding of the `Client` state the claims need: the `Device`
(`self._tivo`), the registered callbacks (`self._data_callback`), and
whether the writer/reader handles are present (`self._writer`,
`self._reader`). -/
structure ClientState where
  tivo : Device
  callbacks : List Nat
  writer : Bool
  reader : Bool
  deriving DecidableEq

/-- Result of `Client._send` and of the command methods: the bytes written
to the socket if any, plus the `wait_for_data` effects. -/
structure SendResult where
  transmitted : Option String
  device : Device
  outcome : Outcome
  invoked : List (Nat × Device)
  deriving DecidableEq

/-- The bytes `Client._send` writes: `f"\x7bdata\x7d\r".upper().encode()`
(`client.py`, line 114). -/
def sendWire (data : String) : String := pyUpper (data ++ "\r")

/-- Embedding of `Client._send` (`client.py`, lines 107-131).  With no
writer handle, the body is skipped entirely (silent no-op).  Otherwise the
data is written; a write/drain failure (never an `asyncio.TimeoutError`)
is wrapped into `VirginMediaError` with its formatted message; when
`wait_for_reply` is true the reply-wait runs and its errors — all already
`VirginMediaError`s — are re-raised unchanged. -/
def clientSend (st : ClientState) (data : String) (wait_for_reply : Bool)
    (writeErr : Option String) (r : ReadResult) : SendResult :=
  if st.writer then
    match writeErr with
    | some msg =>
      { transmitted := some (sendWire data)
        device := st.tivo
        outcome := .raised (.generic msg)
        invoked := [] }
    | none =>
      if wait_for_reply then
        let w := wait_for_data st.tivo st.callbacks r
        { transmitted := some (sendWire data)
          device := w.device
          outcome := w.outcome
          invoked := w.invoked }
      else
        { transmitted := some (sendWire data)
          device := st.tivo
          outcome := .ok
          invoked := [] }
  else
    { transmitted := none, device := st.tivo, outcome := .ok, invoked := [] }

/-- Embedding of `Client.send_ircode` (`client.py`, lines 198-219): a
caught `VirginMediaError` whose lowered message is `"invalid_key"` is
remapped to `VirginMediaInvalidKey(code)`; any other `VirginMediaError`
is re-raised (the `except Exception` arm is unreachable because `_send`
only raises `VirginMediaError`s). -/
def send_ircode (st : ClientState) (code : String) (wait_for_reply : Bool)
    (writeErr : Option String) (r : ReadResult) : SendResult :=
  let s := clientSend st ("ircode " ++ code) wait_for_reply writeErr r
  match s.outcome with
  | .ok => s
  | .raised e =>
    if pyLower e.message = "invalid_key" then
      { s with outcome := .raised (.invalidKey code) }
    else s

/-- Embedding of `Client.send_keyboard` (`client.py`, lines 221-241): a
caught `VirginMediaError` whose lowered message is `"invalid_key"` is
remapped to `VirginMediaInvalidKey(code)`; any other `VirginMediaError`
is only logged — the handler falls through without re-raising, so the
method returns normally. -/
def send_keyboard (st : ClientState) (code : String) (wait_for_reply : Bool)
    (writeErr : Option String) (r : ReadResult) : SendResult :=
  let s := clientSend st ("keyboard " ++ code) wait_for_reply writeErr r
  match s.outcome with
  | .ok => s
  | .raised e =>
    if pyLower e.message = "invalid_key" then
      { s with outcome := .raised (.invalidKey code) }
    else { s with outcome := .ok }

/-- Embedding of `Client.send_teleport` (`client.py`, lines 243-259),
which always waits for the reply: a caught `VirginMediaError` whose
lowered message is `"invalid_command"` is remapped to
`VirginMediaInvalidCommand(code)`; any other `VirginMediaError` is
swallowed — the handler falls through without re-raising. -/
def send_teleport (st : ClientState) (code : String)
    (writeErr : Option String) (r : ReadResult) : SendResult :=
  let s := clientSend st ("teleport " ++ code) true writeErr r
  match s.outcome with
  | .ok => s
  | .raised e =>
    if pyLower e.message = "invalid_command" then
      { s with outcome := .raised (.invalidCommand code) }
    else { s with outcome := .ok }

/-- Embedding of `Client.set_channel` (`client.py`, lines 261-285), which
always waits for the reply: a caught `VirginMediaError` whose lowered
message is `"no_live"` becomes `VirginMediaNotLive`, one whose lowered
message is `"invalid_channel"` becomes
`VirginMediaInvalidChannel(channel_number)`, and anything else is
re-raised. -/
def set_channel (st : ClientState) (channel_number : Nat)
    (writeErr : Option String) (r : ReadResult) : SendResult :=
  let s := clientSend st ("setch " ++ toString channel_number) true writeErr r
  match s.outcome with
  | .ok => s
  | .raised e =>
    if pyLower e.message = "no_live" then
      { s with outcome := .raised .notLive }
    else if pyLower e.message = "invalid_channel" then
      { s with outcome := .raised (.invalidChannel channel_number) }
    else s

/-- Embedding of `Client.disconnect` (`client.py`, lines 171-196): when a
writer handle is present it is closed and both handles are discarded;
otherwise nothing happens.  No path raises. -/
def disconnect (st : ClientState) : ClientState :=
  if st.writer then { st with writer := false, reader := false } else st

/-- Fold of `Device._set_channel_number` over a sequence of updates. -/
def applyUpdates (dev : Device) : List (Option Nat) → Device
  | [] => dev
  | v :: vs => applyUpdates (dev.set_channel_number v) vs

/-- Modelled from the spec's words for the `previous_channel_number`
invariant: walking a sequence of updates from channel `c` with recorded
previous value `p`, an update that differs from the current channel is a
changing update and records the value held immediately before it; an
update equal to the current channel records nothing. -/
def prevSpec (c p : Option Nat) : List (Option Nat) → Option Nat
  | [] => p
  | v :: vs => prevSpec v (if v = c then p else c) vs

/-- Maximal runs of consecutive decimal digits in a character list, in
order of appearance. -/
def digitRuns : List Char → List (List Char)
  | [] => []
  | c :: cs =>
    let rs := digitRuns cs
    if c.isDigit then
      match cs with
      | d :: _ =>
        if d.isDigit then
          match rs with
          | r :: rest => (c :: r) :: rest
          | [] => [[c]]
        else [c] :: rs
      | [] => [[c]]
    else rs

/-- Modelled from the claim's words for CH_STATUS parsing: the first
maximal digit run of length exactly four anywhere in the line, as an
integer. -/
def specFirstRunOfExactlyFour (s : String) : Option Nat :=
  ((digitRuns s.data).find? fun r => r.length == 4).map digitsToNat

/-- Concrete device used for witnesses and counterexamples. -/
def dev0 : Device :=
  { host := "192.168.1.10", port := 31339
    channel_number := none, previous_channel_number := none }

/-- Concrete connected client state. -/
def stConn : ClientState :=
  { tivo := dev0, callbacks := [], writer := true, reader := true }

/-- Concrete disconnected client state, with a device holding values. -/
def stNoConn : ClientState :=
  { tivo := { dev0 with channel_number := some 105, previous_channel_number := some 103 }
    callbacks := [7]
    writer := false
    reader := false }

/-! ## Helper lemmas -/

theorem Device.channel_number_set (dev : Device) (v : Option Nat) :
    (dev.set_channel_number v).channel_number = v := by
  simp only [Device.set_channel_number]
  split
  · rfl
  · next h => exact (not_not.mp h).symm

theorem Device.previous_set (dev : Device) (v : Option Nat) :
    (dev.set_channel_number v).previous_channel_number =
      if v = dev.channel_number then dev.previous_channel_number
      else dev.channel_number := by
  simp only [Device.set_channel_number]
  split
  · rfl
  · next h => rw [if_pos (not_not.mp h)]


theorem Device.set_self (dev : Device) :
    dev.set_channel_number dev.channel_number = dev := by
  simp [Device.set_channel_number]

theorem applyUpdates_previous (dev : Device) (us : List (Option Nat)) :
    (applyUpdates dev us).previous_channel_number =
      prevSpec dev.channel_number dev.previous_channel_number us := by
  induction us generalizing dev with
  | nil => rfl
  | cons v vs ih =>
    simp only [applyUpdates, prevSpec]
    rw [ih, Device.channel_number_set, Device.previous_set]

theorem fourDigitsAt_nil (i : Nat) : fourDigitsAt [] i = false := by
  simp [fourDigitsAt, List.drop_nil]

theorem fourDigitsAt_cons (a : Char) (cs : List Char) (i : Nat) :
    fourDigitsAt (a :: cs) (i + 1) = fourDigitsAt cs i := rfl

theorem windowVal_cons (a : Char) (cs : List Char) (i : Nat) :
    windowVal (a :: cs) (i + 1) = windowVal cs i := rfl

theorem findFourVal_eq_some_iff (cs : List Char) (v : Nat) :
    findFourVal cs = some v ↔
      ∃ i, fourDigitsAt cs i = true ∧ (∀ j, j < i → fourDigitsAt cs j = false) ∧
        v = windowVal cs i := by
  induction cs with
  | nil => simp [findFourVal, fourDigitsAt_nil]
  | cons a rest ih =>
    cases h0 : fourDigitsAt (a :: rest) 0 with
    | true =>
      simp only [findFourVal, h0, if_true, Option.some.injEq]
      constructor
      · intro hv
        exact ⟨0, h0, fun j hj => absurd hj (Nat.not_lt_zero j), hv.symm⟩
      · rintro ⟨i, hi, hmin, hv⟩
        cases i with
        | zero => exact hv.symm
        | succ k => exact absurd h0 (by simp [hmin 0 (Nat.succ_pos k)])
    | false =>
      have hred : findFourVal (a :: rest) = findFourVal rest := by
        simp [findFourVal, h0]
      rw [hred, ih]
      constructor
      · rintro ⟨i, hi, hmin, hv⟩
        refine ⟨i + 1, by rw [fourDigitsAt_cons]; exact hi, ?_, by rw [windowVal_cons]; exact hv⟩
        intro j hj
        cases j with
        | zero => exact h0
        | succ k => rw [fourDigitsAt_cons]; exact hmin k (Nat.lt_of_succ_lt_succ hj)
      · rintro ⟨i, hi, hmin, hv⟩
        cases i with
        | zero => exact absurd hi (by simp [h0])
        | succ k =>
          refine ⟨k, by rw [← fourDigitsAt_cons a]; exact hi, ?_,
            by rw [← windowVal_cons a]; exact hv⟩
          intro j hj
          have := hmin (j + 1) (Nat.succ_lt_succ hj)
          rwa [fourDigitsAt_cons] at this

theorem findFourVal_eq_none_iff (cs : List Char) :
    findFourVal cs = none ↔ ∀ i, fourDigitsAt cs i = false := by
  induction cs with
  | nil => simp [findFourVal, fourDigitsAt_nil]
  | cons a rest ih =>
    cases h0 : fourDigitsAt (a :: rest) 0 with
    | true =>
      simp only [findFourVal, h0, if_true]
      constructor
      · intro h; exact absurd h (by simp)
      · intro h; exact absurd (h 0) (by simp [h0])
    | false =>
      have hred : findFourVal (a :: rest) = findFourVal rest := by
        simp [findFourVal, h0]
      rw [hred, ih]
      constructor
      · intro h i
        cases i with
        | zero => exact h0
        | succ k => rw [fourDigitsAt_cons]; exact h k
      · intro h i
        have := h (i + 1)
        rwa [fourDigitsAt_cons] at this

theorem stringData_append (a b : String) : (a ++ b).data = a.data ++ b.data := rfl

theorem pyUpper_append (a b : String) : pyUpper (a ++ b) = pyUpper a ++ pyUpper b :=
  congrArg String.mk (List.map_append Char.toUpper a.data b.data)

theorem sendWire_eq (data : String) : sendWire data = pyUpper data ++ "\r" := by
  rw [sendWire, pyUpper_append]
  rfl

theorem wait_ch_failed_invalid_channel (dev : Device) (cbs : List Nat) :
    wait_for_data dev cbs (ReadResult.bytes "CH_FAILED INVALID_CHANNEL")
      = { device := dev
          outcome := .raised (.generic "INVALID_CHANNEL")
          invoked := [] } := rfl

/-! ## Claim theorems -/

/-- Claim C1 (amended): errors arising during the send or the reply-wait
propagate to the immediate caller for `send_ircode` (INVALID_KEY remapped
to InvalidKey, everything else re-raised) and `set_channel` (NO_LIVE and
INVALID_CHANNEL remapped, everything else re-raised); `send_keyboard`
propagates only the INVALID_KEY error (remapped to InvalidKey) and
swallows every other error, and `send_teleport` propagates only the
INVALID_COMMAND error (remapped to InvalidCommand) and swallows every
other error, both completing normally instead. -/
theorem theorem_C1 :
    ∀ (st : ClientState) (code : String) (n : Nat) (w : Bool)
      (we : Option String) (r : ReadResult),
      ((send_ircode st code w we r).outcome = .ok ↔
        (clientSend st ("ircode " ++ code) w we r).outcome = .ok) ∧
      ((set_channel st n we r).outcome = .ok ↔
        (clientSend st ("setch " ++ toString n) true we r).outcome = .ok) ∧
      (∀ e, (clientSend st ("keyboard " ++ code) w we r).outcome = .raised e →
        (send_keyboard st code w we r).outcome =
          (if pyLower e.message = "invalid_key" then .raised (.invalidKey code)
           else .ok)) ∧
      (∀ e, (clientSend st ("teleport " ++ code) true we r).outcome = .raised e →
        (send_teleport st code we r).outcome =
          (if pyLower e.message = "invalid_command"
           then .raised (.invalidCommand code) else .ok)) := by
  intro st code n w we r
  refine ⟨?_, ?_, ?_, ?_⟩
  · cases hoc : (clientSend st ("ircode " ++ code) w we r).outcome with
    | ok => simp [send_ircode, hoc]
    | raised e =>
      by_cases hk : pyLower e.message = "invalid_key" <;>
        simp [send_ircode, hoc, hk]
  · cases hoc : (clientSend st ("setch " ++ toString n) true we r).outcome with
    | ok => simp [set_channel, hoc]
    | raised e =>
      by_cases hl : pyLower e.message = "no_live"
      · simp [set_channel, hoc, hl]
      · by_cases hc : pyLower e.message = "invalid_channel" <;>
          simp [set_channel, hoc, hl, hc]
  · intro e he
    by_cases hk : pyLower e.message = "invalid_key" <;>
      simp [send_keyboard, he, hk]
  · intro e he
    by_cases hk : pyLower e.message = "invalid_command" <;>
      simp [send_teleport, he, hk]

/-- Witness for C1: a command-timeout error arising during the reply-wait
of `send_keyboard` is swallowed, so the call completes normally. -/
theorem witness_C1 :
    (send_keyboard stConn "up" true none ReadResult.timeout).outcome
      = Outcome.ok := by
  have h := (theorem_C1 stConn "up" 0 true none ReadResult.timeout).2.2.1
    VirginMediaError.commandTimeout (by decide)
  exact h.trans (by decide)

/-- Counterexample for C1 as stated: during `send_teleport` the reply-wait
raises a command timeout, yet the method returns normally — the error does
not propagate to the caller. -/
theorem counterexample_C1 :
    (clientSend stConn "teleport livetv" true none ReadResult.timeout).outcome
      = Outcome.raised .commandTimeout ∧
    (send_teleport stConn "livetv" none ReadResult.timeout).outcome
      = Outcome.ok :=
  ⟨by decide, by decide⟩

/-- Claim C2 (amended): `set_channel n` raises InvalidChannel carrying `n`
when the device's reply line is `CH_FAILED INVALID_CHANNEL`; a bare reply
line `INVALID_CHANNEL 999` matches no classification branch and raises
nothing. -/
theorem theorem_C2 :
    ∀ (st : ClientState) (n : Nat), st.writer = true →
      (set_channel st n none (ReadResult.bytes "CH_FAILED INVALID_CHANNEL")).outcome
        = Outcome.raised (.invalidChannel n) := by
  intro st n h
  obtain ⟨t, cb, w, rd⟩ := st
  replace h : w = true := h
  subst h
  rfl

/-- Witness for C2's amended theorem at a concrete connected client. -/
theorem witness_C2 :
    (set_channel stConn 999 none
        (ReadResult.bytes "CH_FAILED INVALID_CHANNEL")).outcome
      = Outcome.raised (.invalidChannel 999) :=
  theorem_C2 stConn 999 rfl

/-- Counterexample for C2 as stated: with the reply line exactly
`INVALID_CHANNEL 999`, `set_channel 999` returns normally and in
particular does not raise InvalidChannel. -/
theorem counterexample_C2 :
    (set_channel stConn 999 none (ReadResult.bytes "INVALID_CHANNEL 999")).outcome
      = Outcome.ok ∧
    (set_channel stConn 999 none (ReadResult.bytes "INVALID_CHANNEL 999")).outcome
      ≠ Outcome.raised (.invalidChannel 999) :=
  ⟨by decide, by decide⟩

/-- Claim C3 (amended): for a reply line starting (after trimming) with
CH_STATUS, `wait_for_data` takes the leftmost position at which four
consecutive digits occur — the first four digits of a longer run when the
run is longer than four — and sets the channel number to their value; when
no four consecutive digits occur anywhere, the channel number is
unchanged.  The second and third conjuncts characterise the extraction as
exactly this leftmost-window search. -/
theorem theorem_C3 :
    (∀ (dev : Device) (cbs : List Nat) (s : String),
        startsWithL "CH_STATUS".data (pyStrip s).data = true →
        (wait_for_data dev cbs (ReadResult.bytes s)).device.channel_number
          = (match findFourVal (pyStrip s).data with
             | some v => some v
             | none => dev.channel_number)) ∧
    (∀ (cs : List Char) (v : Nat),
        findFourVal cs = some v ↔
          ∃ i, fourDigitsAt cs i = true ∧
            (∀ j, j < i → fourDigitsAt cs j = false) ∧ v = windowVal cs i) ∧
    (∀ cs : List Char, findFourVal cs = none ↔ ∀ i, fourDigitsAt cs i = false) := by
  refine ⟨?_, findFourVal_eq_some_iff, findFourVal_eq_none_iff⟩
  intro dev cbs s h
  have hs : s ≠ "" := by
    intro he
    subst he
    exact absurd h (by decide)
  simp only [wait_for_data]
  rw [if_neg hs, if_pos h]
  cases hf : findFourVal (pyStrip s).data with
  | some v => simp [hf, Device.channel_number_set]
  | none => simp [hf]

/-- Witness for C3's amended theorem on a concrete CH_STATUS line. -/
theorem witness_C3 :
    (wait_for_data dev0 [] (ReadResult.bytes " CH_STATUS 0105 ")).device.channel_number
      = some 105 :=
  (theorem_C3.1 dev0 [] " CH_STATUS 0105 " (by decide)).trans (by decide)

/-- Counterexample for C3 as stated: the line `CH_STATUS 12345` contains
no maximal run of exactly four digits, so by the claim the channel number
should stay unchanged (`none`), yet the code sets it to 1234 — the first
four digits of the five-digit run. -/
theorem counterexample_C3 :
    (wait_for_data dev0 [] (ReadResult.bytes "CH_STATUS 12345")).device.channel_number
      = some 1234 ∧
    specFirstRunOfExactlyFour (pyStrip "CH_STATUS 12345") = none :=
  ⟨by decide, by decide⟩

/-- Claim C4: `previous_channel_number` is set to the old channel number
exactly when the new value differs (an equal value changes nothing at
all — updating with the current channel number is the identity), and
after any sequence of updates `previous_channel_number` equals the value
`channel_number` held immediately before the most recent changing update,
as expressed by the spec-side recursion `prevSpec`. -/
theorem theorem_C4 :
    (∀ (dev : Device) (v : Option Nat),
        (dev.set_channel_number v).channel_number = v ∧
        (dev.set_channel_number v).previous_channel_number =
          (if v = dev.channel_number then dev.previous_channel_number
           else dev.channel_number)) ∧
    (∀ dev : Device, dev.set_channel_number dev.channel_number = dev) ∧
    (∀ (dev : Device) (us : List (Option Nat)),
        (applyUpdates dev us).previous_channel_number =
          prevSpec dev.channel_number dev.previous_channel_number us) :=
  ⟨fun dev v => ⟨Device.channel_number_set dev v, Device.previous_set dev v⟩,
   Device.set_self, applyUpdates_previous⟩

/-- Claim C5: whenever a non-empty reply is classified without raising,
every registered callback is invoked exactly once, in registration order,
with the final device snapshot. -/
theorem theorem_C5 :
    ∀ (dev : Device) (cbs : List Nat) (s : String),
      s ≠ "" →
      (wait_for_data dev cbs (ReadResult.bytes s)).outcome = .ok →
      (wait_for_data dev cbs (ReadResult.bytes s)).invoked
        = cbs.map fun c => (c, (wait_for_data dev cbs (ReadResult.bytes s)).device) := by
  intro dev cbs s hs
  simp only [wait_for_data]
  rw [if_neg hs]
  split
  · split
    · intro _; rfl
    · intro _; rfl
  · split
    · intro hcontra; cases hcontra
    · split
      · intro hcontra; cases hcontra
      · split
        · intro hcontra; cases hcontra
        · intro _; rfl

/-- Witness for C5: an unrecognised non-empty line still invokes the one
registered callback with the (unchanged) device snapshot. -/
theorem witness_C5 :
    (wait_for_data dev0 [7] (ReadResult.bytes "hello")).invoked = [(7, dev0)] :=
  (theorem_C5 dev0 [7] "hello" (by decide) (by decide)).trans (by decide)

/-- Claim C6: a timed-out read always resets the channel number to `none`
and raises CommandTimeout, whatever the prior device state. -/
theorem theorem_C6 :
    ∀ (dev : Device) (cbs : List Nat),
      (wait_for_data dev cbs ReadResult.timeout).device.channel_number = none ∧
      (wait_for_data dev cbs ReadResult.timeout).outcome
        = Outcome.raised .commandTimeout :=
  fun dev _ => ⟨Device.channel_number_set dev none, rfl⟩

/-- Claim C7: a zero-byte read always resets the channel number to `none`
(via the no-argument reset path) and raises ConnectionReset, whatever the
prior device state. -/
theorem theorem_C7 :
    ∀ (dev : Device) (cbs : List Nat),
      (wait_for_data dev cbs (ReadResult.bytes "")).device.channel_number = none ∧
      (wait_for_data dev cbs (ReadResult.bytes "")).outcome
        = Outcome.raised .connectionReset :=
  fun dev _ => ⟨Device.channel_number_set dev none, rfl⟩

/-- Claim C8: `disconnect` never touches the device snapshot or the
callback list; when connected it clears both socket handles, and when not
connected it is the identity (and no path raises, `disconnect` being a
total function into `ClientState`). -/
theorem theorem_C8 :
    ∀ st : ClientState,
      (disconnect st).tivo = st.tivo ∧
      (disconnect st).callbacks = st.callbacks ∧
      (st.writer = true →
        (disconnect st).writer = false ∧ (disconnect st).reader = false) ∧
      (st.writer = false → disconnect st = st) := by
  intro st
  unfold disconnect
  cases h : st.writer <;> simp [h]

/-- Witness for C8: a connected client gets both handles cleared, and a
disconnected client is left untouched. -/
theorem witness_C8 :
    (disconnect stConn).writer = false ∧ (disconnect stConn).reader = false ∧
    disconnect stNoConn = stNoConn :=
  ⟨((theorem_C8 stConn).2.2.1 rfl).1, ((theorem_C8 stConn).2.2.1 rfl).2,
   (theorem_C8 stNoConn).2.2.2 rfl⟩

/-- Claim C9: while connected, the bytes transmitted are always the
command text upper-cased followed by a single carriage return, both for
the raw send primitive and for `send_ircode` in particular. -/
theorem theorem_C9 :
    ∀ (st : ClientState) (data code : String) (w : Bool)
      (we : Option String) (r : ReadResult),
      st.writer = true →
      (clientSend st data w we r).transmitted = some (pyUpper data ++ "\r") ∧
      (send_ircode st code w we r).transmitted
        = some (pyUpper ("ircode " ++ code) ++ "\r") := by
  intro st data code w we r h
  have base : ∀ d : String,
      (clientSend st d w we r).transmitted = some (pyUpper d ++ "\r") := by
    intro d
    cases we <;> cases w <;> simp [clientSend, h, sendWire_eq]
  refine ⟨base data, ?_⟩
  cases hoc : (clientSend st ("ircode " ++ code) w we r).outcome with
  | ok => simpa [send_ircode, hoc] using base ("ircode " ++ code)
  | raised e =>
    by_cases hk : pyLower e.message = "invalid_key" <;>
      simpa [send_ircode, hoc, hk] using base ("ircode " ++ code)

/-- Witness for C9: `send_ircode "standby"` transmits exactly the bytes
`IRCODE STANDBY\r`. -/
theorem witness_C9 :
    (send_ircode stConn "standby" true none ReadResult.timeout).transmitted
      = some "IRCODE STANDBY\r" :=
  ((theorem_C9 stConn "x" "standby" true none ReadResult.timeout rfl).2).trans
    (by decide)

/-- Claim C10: every command method invoked with no writer handle is a
silent no-op: nothing is transmitted, no reply-wait happens, no callback
runs, the device snapshot is unchanged, and the call returns normally. -/
theorem theorem_C10 :
    ∀ (st : ClientState) (code : String) (n : Nat) (w : Bool)
      (we : Option String) (r : ReadResult),
      st.writer = false →
      send_ircode st code w we r
        = { transmitted := none, device := st.tivo, outcome := .ok, invoked := [] } ∧
      send_keyboard st code w we r
        = { transmitted := none, device := st.tivo, outcome := .ok, invoked := [] } ∧
      send_teleport st code we r
        = { transmitted := none, device := st.tivo, outcome := .ok, invoked := [] } ∧
      set_channel st n we r
        = { transmitted := none, device := st.tivo, outcome := .ok, invoked := [] } := by
  intro st code n w we r h
  have hc : ∀ (d : String) (wt : Bool),
      clientSend st d wt we r
        = { transmitted := none, device := st.tivo, outcome := .ok, invoked := [] } := by
    intro d wt
    simp [clientSend, h]
  exact ⟨by simp [send_ircode, hc], by simp [send_keyboard, hc],
    by simp [send_teleport, hc], by simp [set_channel, hc]⟩

/-- Witness for C10: `set_channel` on a disconnected client with a
populated device snapshot is a silent no-op. -/
theorem witness_C10 :
    set_channel stNoConn 105 none ReadResult.timeout
      = { transmitted := none, device := stNoConn.tivo
          outcome := .ok, invoked := [] } :=
  (theorem_C10 stNoConn "x" 105 true none ReadResult.timeout rfl).2.2.2
